import Mathlib

/-
Verification of the air-quality collection pipeline in main.py
(class AirQualityMonitorEnhanced): severity mapping, WAQI response
normalization, record validation, and the retrying/verifying database
save loop with its statistics counters.

Python values appearing in API responses and record dictionaries are
modelled by the inductive type PyVal; Python dictionaries are association
lists with distinct keys.  Machine-level floating point is modelled by
rationals plus the special values inf, negInf and nan, which is faithful for every
comparison and conversion the program performs on the values the claims
touch.  String-to-number conversion models the subset of Python literal
syntax relevant here (sign, digits, decimal point, inf/infinity/nan);
exotic forms (exponents, underscores, hex floats) do not occur in the
claims' inputs.
-/

namespace AirQuality

/-- Model of a Python float: a finite rational or one of the special values
a Python float can hold. -/
inductive PyFloat where
  | finite (q : ℚ)
  | inf
  | negInf
  | nan
deriving DecidableEq

/-- Model of a Python/JSON value as it appears in WAQI API responses and in
the record dictionaries of main.py. -/
inductive PyVal where
  | none
  | bool (b : Bool)
  | int (n : Int)
  | float (f : PyFloat)
  | str (s : String)
  | list (xs : List PyVal)
  | dict (xs : List (String × PyVal))

/-- Python exception kinds raised by the operations main.py performs. -/
inductive PyExc where
  | valueError
  | typeError
  | attributeError
  | overflowError
  | keyError
deriving DecidableEq

/-- Numeric value of a list of decimal digit characters. -/
def digitsVal (l : List Char) : Nat :=
  l.foldl (fun a c => a * 10 + (c.toNat - 48)) 0

/-- Strip leading and trailing whitespace from a character list (model of
Python str.strip on the whitespace occurring here). -/
def trimChars (l : List Char) : List Char :=
  ((l.dropWhile Char.isWhitespace).reverse.dropWhile Char.isWhitespace).reverse

/-- Split an optional leading sign off a character list; returns
(isNegative, rest). -/
def splitSignChars : List Char → Bool × List Char
  | '-' :: r => (true, r)
  | '+' :: r => (false, r)
  | l => (false, l)

/-- Split a character list on a separator character. -/
def splitOnChar (c : Char) : List Char → List (List Char)
  | [] => [[]]
  | x :: xs =>
    match splitOnChar c xs with
    | [] => [[]]
    | g :: gs => if x = c then [] :: g :: gs else (x :: g) :: gs

/-- Model of Python int(s) on a string: optional whitespace and sign followed
by decimal digits. -/
def parseIntStr (s : String) : Option Int :=
  let p := splitSignChars (trimChars s.toList)
  if p.2 ≠ [] ∧ p.2.all Char.isDigit then
    some (if p.1 then -(digitsVal p.2 : Int) else (digitsVal p.2 : Int))
  else Option.none

/-- Apply a sign flag to a rational. -/
def sgn (neg : Bool) (q : ℚ) : ℚ := if neg then -q else q

/-- Model of Python float(s) on a string: optional whitespace and sign, then
"inf"/"infinity"/"nan" (case-insensitive) or a decimal literal. -/
def parseFloatStr (s : String) : Option PyFloat :=
  let p := splitSignChars (trimChars s.toList)
  let low := p.2.map Char.toLower
  if low = "inf".toList ∨ low = "infinity".toList then
    some (if p.1 then PyFloat.negInf else PyFloat.inf)
  else if low = "nan".toList then some PyFloat.nan
  else
    match splitOnChar '.' p.2 with
    | [ip] =>
      if ip ≠ [] ∧ ip.all Char.isDigit then
        some (PyFloat.finite (sgn p.1 (digitsVal ip : ℚ)))
      else Option.none
    | [ip, fp] =>
      if ip ++ fp ≠ [] ∧ ip.all Char.isDigit ∧ fp.all Char.isDigit then
        some (PyFloat.finite
          (sgn p.1 ((digitsVal ip : ℚ) + (digitsVal fp : ℚ) / (10 : ℚ) ^ fp.length)))
      else Option.none
    | _ => Option.none

/-- Model of Python float(v): numbers and bools convert, strings parse
(ValueError on failure), None and containers raise TypeError. -/
def pyFloat : PyVal → Except PyExc PyFloat
  | PyVal.bool b => Except.ok (PyFloat.finite (if b then 1 else 0))
  | PyVal.int n => Except.ok (PyFloat.finite (n : ℚ))
  | PyVal.float f => Except.ok f
  | PyVal.str s =>
    match parseFloatStr s with
    | some f => Except.ok f
    | Option.none => Except.error PyExc.valueError
  | PyVal.none => Except.error PyExc.typeError
  | PyVal.list _ => Except.error PyExc.typeError
  | PyVal.dict _ => Except.error PyExc.typeError

/-- Model of Python int(v): floats truncate toward zero (OverflowError on
inf, ValueError on nan), strings parse integer literals, None and containers
raise TypeError. -/
def pyInt : PyVal → Except PyExc Int
  | PyVal.bool b => Except.ok (if b then 1 else 0)
  | PyVal.int n => Except.ok n
  | PyVal.float (PyFloat.finite q) => Except.ok (Int.tdiv q.num q.den)
  | PyVal.float PyFloat.inf => Except.error PyExc.overflowError
  | PyVal.float PyFloat.negInf => Except.error PyExc.overflowError
  | PyVal.float PyFloat.nan => Except.error PyExc.valueError
  | PyVal.str s =>
    match parseIntStr s with
    | some n => Except.ok n
    | Option.none => Except.error PyExc.valueError
  | PyVal.none => Except.error PyExc.typeError
  | PyVal.list _ => Except.error PyExc.typeError
  | PyVal.dict _ => Except.error PyExc.typeError

/-- The six severity labels, in the order of main.py's valid_levels list. -/
def valid_levels : List String :=
  ["优", "良", "轻度污染", "中度污染", "重度污染", "严重污染"]

/-- Core of get_air_quality_level on an integer index: the inclusive
upper-bound chain of main.py lines 477-488. -/
def get_air_quality_level (aqi : Int) : String :=
  if aqi ≤ 50 then "优"
  else if aqi ≤ 100 then "良"
  else if aqi ≤ 150 then "轻度污染"
  else if aqi ≤ 200 then "中度污染"
  else if aqi ≤ 300 then "重度污染"
  else "严重污染"

/-- Full get_air_quality_level: Python first coerces with int(aqi);
ValueError or TypeError fall back to 0, any other exception (OverflowError
from an infinite float) propagates. -/
def get_air_quality_level_py (aqi : PyVal) : Except PyExc String :=
  match pyInt aqi with
  | Except.ok n => Except.ok (get_air_quality_level n)
  | Except.error PyExc.valueError => Except.ok (get_air_quality_level 0)
  | Except.error PyExc.typeError => Except.ok (get_air_quality_level 0)
  | Except.error e => Except.error e

/-- The six severity categories named by the specification, in increasing
order of severity. -/
inductive Severity where
  | good
  | moderate
  | lightlyPolluted
  | moderatelyPolluted
  | heavilyPolluted
  | severelyPolluted
deriving DecidableEq

/-- The specification's name for each severity label string. -/
def levelSeverity (s : String) : Option Severity :=
  if s = "优" then some Severity.good
  else if s = "良" then some Severity.moderate
  else if s = "轻度污染" then some Severity.lightlyPolluted
  else if s = "中度污染" then some Severity.moderatelyPolluted
  else if s = "重度污染" then some Severity.heavilyPolluted
  else if s = "严重污染" then some Severity.severelyPolluted
  else Option.none

/-- Severity category of an integer index. -/
def severity (i : Int) : Option Severity := levelSeverity (get_air_quality_level i)

/-- Position of a label in the ordered list of the six categories, used to
state monotonicity of the severity mapping. -/
def levelIdx (s : String) : Nat := valid_levels.indexOf s

/-- A record dictionary as passed between parse_waqi_response, validate_data
and save_to_database: a Python dict of string keys. -/
abbrev Record := List (String × PyVal)

/-- Association-list lookup, the model of Python dict access (keys are
distinct by construction, so first match is the value). -/
def lookupA (xs : List (String × PyVal)) (k : String) : Option PyVal :=
  (xs.find? (fun p => p.1 == k)).map (fun p => p.2)

/-- Model of Python v.get(k, dflt): returns the entry or the default on a
dict, raises AttributeError on any non-dict value. -/
def dictGetD (v : PyVal) (k : String) (dflt : PyVal) : Except PyExc PyVal :=
  match v with
  | PyVal.dict xs => Except.ok ((lookupA xs k).getD dflt)
  | _ => Except.error PyExc.attributeError

/-- Test for the Python value None. -/
def isNone : PyVal → Bool
  | PyVal.none => true
  | _ => false

/-- Rendering of a float value inside the archival JSON serialization. -/
def pyFloatRender : PyFloat → String
  | PyFloat.finite q => toString q.num ++ "/" ++ toString q.den
  | PyFloat.inf => "Infinity"
  | PyFloat.negInf => "-Infinity"
  | PyFloat.nan => "NaN"

mutual

/-- Model of json.dumps on the raw document, used for the raw_data archival
field.  The exact rendering of numbers is immaterial to every claim; the
structure mirrors JSON serialization. -/
def jsonDumps : PyVal → String
  | PyVal.none => "null"
  | PyVal.bool b => cond b "true" "false"
  | PyVal.int n => toString n
  | PyVal.float f => pyFloatRender f
  | PyVal.str s => "\"" ++ s ++ "\""
  | PyVal.list xs => "[" ++ jsonDumpsList xs ++ "]"
  | PyVal.dict xs => "\x7b" ++ jsonDumpsDict xs ++ "\x7d"

/-- Serialization of a JSON array body. -/
def jsonDumpsList : List PyVal → String
  | [] => ""
  | [x] => jsonDumps x
  | x :: y :: xs => jsonDumps x ++ ", " ++ jsonDumpsList (y :: xs)

/-- Serialization of a JSON object body. -/
def jsonDumpsDict : List (String × PyVal) → String
  | [] => ""
  | [(k, v)] => "\"" ++ k ++ "\": " ++ jsonDumps v
  | (k, v) :: y :: xs => "\"" ++ k ++ "\": " ++ jsonDumps v ++ ", " ++ jsonDumpsDict (y :: xs)

end

/-- Model of _extract_iaqi_value (main.py lines 418-434):
value = iaqi.get(pollutant, an empty dict).get("v", 0.0), then
float(value) if value is not None else 0.0, with ValueError/TypeError
falling back to 0.0.  AttributeError from calling .get on a non-dict is not
caught and propagates. -/
def _extract_iaqi_value (iaqi : PyVal) (pollutant : String) : Except PyExc PyFloat :=
  match dictGetD iaqi pollutant (PyVal.dict []) with
  | Except.error e => Except.error e
  | Except.ok entry =>
    match dictGetD entry "v" (PyVal.float (PyFloat.finite 0)) with
    | Except.error e => Except.error e
    | Except.ok value =>
      if isNone value then Except.ok (PyFloat.finite 0)
      else
        match pyFloat value with
        | Except.ok f => Except.ok f
        | Except.error PyExc.valueError => Except.ok (PyFloat.finite 0)
        | Except.error PyExc.typeError => Except.ok (PyFloat.finite 0)
        | Except.error e => Except.error e

/-- Model of parse_waqi_response (main.py lines 368-416) up to its
try/except: each step that can raise is sequenced; any exception is caught
by the caller-level handler (modelled by parse_waqi_response below). -/
def parse_waqi_core (api_response : PyVal) (city : String) : Except PyExc Record :=
  match dictGetD api_response "data" (PyVal.dict []) with
  | Except.error e => Except.error e
  | Except.ok data =>
  match dictGetD data "aqi" (PyVal.int 0) with
  | Except.error e => Except.error e
  | Except.ok aqi =>
  match dictGetD data "city" (PyVal.dict []) with
  | Except.error e => Except.error e
  | Except.ok cityField =>
  match dictGetD cityField "name" (PyVal.str city) with
  | Except.error e => Except.error e
  | Except.ok city_name =>
  match dictGetD data "iaqi" (PyVal.dict []) with
  | Except.error e => Except.error e
  | Except.ok iaqi =>
  match _extract_iaqi_value iaqi "pm25" with
  | Except.error e => Except.error e
  | Except.ok pm25 =>
  match _extract_iaqi_value iaqi "pm10" with
  | Except.error e => Except.error e
  | Except.ok pm10 =>
  match _extract_iaqi_value iaqi "co" with
  | Except.error e => Except.error e
  | Except.ok co =>
  match _extract_iaqi_value iaqi "no2" with
  | Except.error e => Except.error e
  | Except.ok no2 =>
  match _extract_iaqi_value iaqi "o3" with
  | Except.error e => Except.error e
  | Except.ok o3 =>
  match _extract_iaqi_value iaqi "so2" with
  | Except.error e => Except.error e
  | Except.ok so2 =>
  match get_air_quality_level_py aqi with
  | Except.error e => Except.error e
  | Except.ok level =>
  Except.ok
    [("city", city_name), ("aqi", aqi),
     ("pm25", PyVal.float pm25), ("pm10", PyVal.float pm10),
     ("co", PyVal.float co), ("no2", PyVal.float no2),
     ("o3", PyVal.float o3), ("so2", PyVal.float so2),
     ("level", PyVal.str level),
     ("raw_data", PyVal.str (jsonDumps api_response))]

/-- Normalization entry point: parse_waqi_response returns the parsed record
dictionary, or None when any step raised (the except-Exception handler at
main.py lines 414-416). -/
def parse_waqi_response (api_response : PyVal) (city : String) : Option Record :=
  (parse_waqi_core api_response city).toOption

/-- Raw document whose overall index field is present but non-numeric, as
the WAQI service actually produces for stations without a current reading. -/
def docNonNumericAqi : PyVal :=
  PyVal.dict [("data", PyVal.dict [("aqi", PyVal.str "-")])]

/-- Raw document whose overall index field is absent. -/
def docAbsentAqi : PyVal := PyVal.dict [("data", PyVal.dict [])]

/-- Raw document with a pollutant entry that is present but not a mapping. -/
def docNonMappingEntry : PyVal :=
  PyVal.dict [("data", PyVal.dict
    [("aqi", PyVal.int 80),
     ("iaqi", PyVal.dict [("pm25", PyVal.str "oops")])])]

/-- The required_fields list of validate_data (main.py line 140). -/
def required_fields : List String :=
  ["city", "aqi", "pm25", "pm10", "co", "no2", "o3", "so2", "level", "raw_data"]

/-- The numeric_fields list of validate_data (main.py line 152). -/
def numeric_fields : List String :=
  ["aqi", "pm25", "pm10", "co", "no2", "o3", "so2"]

/-- Validation failure reasons, one per raise site of validate_data;
unknown stands for the catch-all handler that wraps any other exception in a
DataValidationError (main.py lines 178-180). -/
inductive ValError where
  | missingField (f : String)
  | invalidCity
  | numericType (f : String)
  | invalidLevel
  | rawTooLong (n : Nat)
  | unknown
deriving DecidableEq

/-- First required field missing from the record, if any. -/
def firstMissing (d : Record) : List String → Option String
  | [] => Option.none
  | f :: fs => if (lookupA d f).isSome then firstMissing d fs else some f

/-- Check 1 of validate_data: all required fields present, first missing
field wins. -/
def checkRequired (d : Record) : Except ValError Unit :=
  match firstMissing d required_fields with
  | some f => Except.error (ValError.missingField f)
  | Option.none => Except.ok ()

/-- Check 2 of validate_data: city is a string and non-empty after
stripping whitespace; a missing key raises KeyError into the catch-all. -/
def checkCity (d : Record) : Except ValError Unit :=
  match lookupA d "city" with
  | some (PyVal.str s) =>
    if trimChars s.toList = [] then Except.error ValError.invalidCity else Except.ok ()
  | some _ => Except.error ValError.invalidCity
  | Option.none => Except.error ValError.unknown

/-- Python isinstance(v, int): int and bool values (bool is a subclass of
int). -/
def isInstInt : PyVal → Bool
  | PyVal.int _ => true
  | PyVal.bool _ => true
  | _ => false

/-- Whether one numeric field passes check 3 of validate_data.  A None value
skips conversion (treated as 0.0) — except for the aqi field, where the
integer sanity check re-runs float(data[field]) and the resulting TypeError
on None is caught as a numeric-type failure.  Any other value passes exactly
when float() conversion succeeds (finite or not). -/
def numericOkF (f : String) (v : PyVal) : Bool :=
  match v with
  | PyVal.none => !(f == "aqi")
  | v =>
    match pyFloat v with
    | Except.ok _ => true
    | Except.error _ => false

/-- Check 3 of validate_data over a list of field names: first failure wins;
a missing key raises KeyError into the catch-all. -/
def checkNumericList (d : Record) : List String → Except ValError Unit
  | [] => Except.ok ()
  | f :: fs =>
    match lookupA d f with
    | Option.none => Except.error ValError.unknown
    | some v =>
      if numericOkF f v then checkNumericList d fs
      else Except.error (ValError.numericType f)

/-- Check 3 of validate_data. -/
def checkNumeric (d : Record) : Except ValError Unit :=
  checkNumericList d numeric_fields

/-- First numeric field (among those present) whose value fails check 3. -/
def firstBadNumericList (d : Record) : List String → Option String
  | [] => Option.none
  | f :: fs =>
    match lookupA d f with
    | Option.none => firstBadNumericList d fs
    | some v => if numericOkF f v then firstBadNumericList d fs else some f

/-- First numeric field of the record failing check 3. -/
def firstBadNumeric (d : Record) : Option String :=
  firstBadNumericList d numeric_fields

/-- Check 4 of validate_data: the level is one of the six valid labels
(a non-string level is simply not in the list). -/
def checkLevel (d : Record) : Except ValError Unit :=
  match lookupA d "level" with
  | some (PyVal.str s) =>
    if s ∈ valid_levels then Except.ok () else Except.error ValError.invalidLevel
  | some _ => Except.error ValError.invalidLevel
  | Option.none => Except.error ValError.unknown

/-- Python len(v): defined on strings, lists and dicts; TypeError otherwise. -/
def pyLen : PyVal → Except PyExc Nat
  | PyVal.str s => Except.ok s.length
  | PyVal.list xs => Except.ok xs.length
  | PyVal.dict xs => Except.ok xs.length
  | _ => Except.error PyExc.typeError

/-- Check 5 of validate_data: raw_data length at most 1,000,000; a length
failure on an unsized value falls into the catch-all. -/
def checkRawLen (d : Record) : Except ValError Unit :=
  match lookupA d "raw_data" with
  | Option.none => Except.error ValError.unknown
  | some v =>
    match pyLen v with
    | Except.error _ => Except.error ValError.unknown
    | Except.ok n =>
      if n > 1000000 then Except.error (ValError.rawTooLong n) else Except.ok ()

/-- Model of validate_data (main.py lines 128-180): the five checks in
source order, first failure wins. -/
def validate_data (d : Record) : Except ValError Unit :=
  match checkRequired d with
  | Except.error e => Except.error e
  | Except.ok _ =>
  match checkCity d with
  | Except.error e => Except.error e
  | Except.ok _ =>
  match checkNumeric d with
  | Except.error e => Except.error e
  | Except.ok _ =>
  match checkLevel d with
  | Except.error e => Except.error e
  | Except.ok _ => checkRawLen d

/-- Finiteness of a float value (what the specification's check 3 asks
for). -/
def PyFloat.isFinite : PyFloat → Bool
  | PyFloat.finite _ => true
  | _ => false

/-- The statistics dictionary db_stats of the monitor (main.py lines
55-62); timestamps are abstract ticks. -/
structure DbStats where
  total_attempts : Nat
  successful_inserts : Nat
  failed_inserts : Nat
  validation_errors : Nat
  last_error : Option String
  last_error_time : Option Nat
deriving DecidableEq

/-- Counter state at process start. -/
def initial_db_stats : DbStats :=
  ⟨0, 0, 0, 0, Option.none, Option.none⟩

/-- Error classes a save attempt can end with, matching the three except
branches of the retry loop: DatabaseError, sqlite3.Error and the generic
Exception handler. -/
inductive AttemptErr where
  | db (msg : String)
  | sqlite (msg : String)
  | other (msg : String)
deriving DecidableEq

/-- The string stored in last_error for each error class (str(e) for
DatabaseError, prefixed forms for the other two branches). -/
def errMsgOf : AttemptErr → String
  | AttemptErr.db m => m
  | AttemptErr.sqlite m => "SQLite错误: " ++ m
  | AttemptErr.other m => "未知错误: " ++ m

/-- Environment oracle for the storage layer, indexed by attempt number:
whether opening the connection raises, whether some statement raises a
sqlite3 error inside the connection scope, the reported rowcount of the
insert, the row count returned by the post-write verification query, and
the current clock tick. -/
structure StorageWorld where
  connErr : Nat → Option String
  sqliteErr : Nat → Option String
  rowcount : Nat → Nat
  verifyCount : Nat → Nat
  now : Nat → Nat

/-- Name of a Python exception kind, used in generic-handler messages. -/
def pyExcName : PyExc → String
  | PyExc.valueError => "ValueError"
  | PyExc.typeError => "TypeError"
  | PyExc.attributeError => "AttributeError"
  | PyExc.overflowError => "OverflowError"
  | PyExc.keyError => "KeyError"

/-- Python d[k]: KeyError when the key is absent. -/
def keyGet (d : Record) (k : String) : Except PyExc PyVal :=
  match lookupA d k with
  | some v => Except.ok v
  | Option.none => Except.error PyExc.keyError

/-- Values supporting slicing (raw_data[:990000]). -/
def pySliceable : PyVal → Bool
  | PyVal.str _ => true
  | PyVal.list _ => true
  | _ => false

/-- Python truthiness of a value (nan and infinities are truthy). -/
def pyTruthy : PyVal → Bool
  | PyVal.none => false
  | PyVal.bool b => b
  | PyVal.int n => decide (n ≠ 0)
  | PyVal.float (PyFloat.finite q) => decide (q ≠ 0)
  | PyVal.float _ => true
  | PyVal.str s => decide (s ≠ "")
  | PyVal.list xs => !xs.isEmpty
  | PyVal.dict xs => !xs.isEmpty

/-- The conversion float(d[f]) if d[f] else 0.0 used when building the
insert tuple. -/
def prepFloatField (d : Record) (f : String) : Except PyExc Unit :=
  match keyGet d f with
  | Except.error e => Except.error e
  | Except.ok v =>
    if pyTruthy v then
      match pyFloat v with
      | Except.error e => Except.error e
      | Except.ok _ => Except.ok ()
    else Except.ok ()

/-- Model of building insert_data (main.py lines 202-213), in evaluation
order; any exception here lands in the generic handler of the retry loop. -/
def prep_insert_data (d : Record) : Except PyExc Unit :=
  match keyGet d "city" with
  | Except.error e => Except.error e
  | Except.ok _ =>
  match keyGet d "aqi" with
  | Except.error e => Except.error e
  | Except.ok aqi =>
  match pyInt aqi with
  | Except.error e => Except.error e
  | Except.ok _ =>
  match prepFloatField d "pm25" with
  | Except.error e => Except.error e
  | Except.ok _ =>
  match prepFloatField d "pm10" with
  | Except.error e => Except.error e
  | Except.ok _ =>
  match prepFloatField d "co" with
  | Except.error e => Except.error e
  | Except.ok _ =>
  match prepFloatField d "no2" with
  | Except.error e => Except.error e
  | Except.ok _ =>
  match prepFloatField d "o3" with
  | Except.error e => Except.error e
  | Except.ok _ =>
  match prepFloatField d "so2" with
  | Except.error e => Except.error e
  | Except.ok _ =>
  match keyGet d "level" with
  | Except.error e => Except.error e
  | Except.ok _ =>
  match keyGet d "raw_data" with
  | Except.error e => Except.error e
  | Except.ok raw =>
  if pySliceable raw then Except.ok () else Except.error PyExc.typeError

/-- One storage attempt of save_to_database after validation (main.py lines
201-243): data preparation, connection open, insert, rowcount check, and
post-write verification.  A sqlite3 error raised inside the connection scope
is converted by the get_db_connection context manager into a DatabaseError
with the connection-error message, so every storage-layer failure surfaces
as the DatabaseError branch. -/
def run_attempt (w : StorageWorld) (d : Record) (i : Nat) : Except AttemptErr Unit :=
  match prep_insert_data d with
  | Except.error e => Except.error (AttemptErr.other (pyExcName e))
  | Except.ok _ =>
    match w.connErr i with
    | some e => Except.error (AttemptErr.db ("数据库连接错误: " ++ e))
    | Option.none =>
      match w.sqliteErr i with
      | some e => Except.error (AttemptErr.db ("数据库连接错误: " ++ e))
      | Option.none =>
        if w.rowcount i = 0 then Except.error (AttemptErr.db "插入操作未影响任何行")
        else if w.verifyCount i = 0 then
          Except.error (AttemptErr.db "数据插入后验证失败，数据未找到")
        else Except.ok ()

/-- Observable side effects of the save loop: storage connection openings
and the fixed backoff sleeps. -/
inductive SaveEvent where
  | connOpen (attempt : Nat)
  | sleep (seconds : Nat)
deriving DecidableEq

/-- Storage interactions of one attempt: the connection is opened exactly
when data preparation succeeded. -/
def attemptEvents (d : Record) (i : Nat) : List SaveEvent :=
  match prep_insert_data d with
  | Except.error _ => []
  | Except.ok _ => [SaveEvent.connOpen i]

/-- Backoff sleep events. -/
def isSleepEvent : SaveEvent → Bool
  | SaveEvent.sleep _ => true
  | _ => false

/-- The retry loop of save_to_database (main.py lines 195-279) over the
remaining attempt indices (the source iterates over range(retry_count)).
Per iteration: re-validate (a DataValidationError is terminal, counted
once, no storage touched), then run the attempt; success is counted once
and returns True; an error on the last attempt (index retry_count - 1) is
terminal with the failure counter, last_error and last_error_time updated;
otherwise sleep 1 second and retry. -/
def save_loop (w : StorageWorld) (d : Record) (retry_count : Nat) :
    List Nat → DbStats → Bool × DbStats × List SaveEvent
  | [], stats => (false, stats, [])
  | attempt :: rest, stats =>
    match validate_data d with
    | Except.error _ =>
      (false, { stats with validation_errors := stats.validation_errors + 1 }, [])
    | Except.ok _ =>
      match run_attempt w d attempt with
      | Except.ok _ =>
        (true, { stats with successful_inserts := stats.successful_inserts + 1 },
         attemptEvents d attempt)
      | Except.error e =>
        if attempt = retry_count - 1 then
          (false,
           { stats with failed_inserts := stats.failed_inserts + 1,
                        last_error := some (errMsgOf e),
                        last_error_time := some (w.now attempt) },
           attemptEvents d attempt)
        else
          let r := save_loop w d retry_count rest stats
          (r.1, r.2.1, attemptEvents d attempt ++ SaveEvent.sleep 1 :: r.2.2)

/-- Model of save_to_database: bump total_attempts, then run the retry
loop over range(retry_count). -/
def save_to_database (w : StorageWorld) (d : Record) (retry_count : Nat)
    (stats : DbStats) : Bool × DbStats × List SaveEvent :=
  save_loop w d retry_count (List.range retry_count)
    { stats with total_attempts := stats.total_attempts + 1 }

/-- Environment of one fetch_data_from_api call: a transport/decode failure
(requests exception or JSON error, all returning None), a decoded JSON
response body, or mock mode without a credential. -/
inductive FetchEnv where
  | requestError (msg : String)
  | response (v : PyVal)
  | mock (d : Record)

/-- Model of fetch_data_from_api (main.py lines 315-366): network and decode
failures return None; a response whose status marker is not "ok" returns
None; otherwise the body is parsed; mock mode returns the generated
record. -/
def fetch_data_from_api (fe : FetchEnv) (city : String) : Option Record :=
  match fe with
  | FetchEnv.requestError _ => Option.none
  | FetchEnv.mock d => some d
  | FetchEnv.response v =>
    match dictGetD v "status" PyVal.none with
    | Except.error _ => Option.none
    | Except.ok s =>
      match s with
      | PyVal.str t => if t = "ok" then parse_waqi_response v city else Option.none
      | _ => Option.none

/-- Model of collect_once (main.py lines 281-313): fetch, then save; a
failed fetch (including normalization failure) returns False; otherwise the
save outcome is returned.  Every failure path yields a Boolean result — the
surrounding try/except never lets an exception escape. -/
def collect_once (fe : FetchEnv) (w : StorageWorld) (city : String)
    (stats : DbStats) : Bool × DbStats × List SaveEvent :=
  match fetch_data_from_api fe city with
  | Option.none => (false, stats, [])
  | some d => save_to_database w d 3 stats

/-- The scheduler loop of start_monitoring (main.py lines 513-531), unrolled
for n ticks that fire the pipeline: each step runs collect_once and the loop
continues regardless of the outcome. -/
def monitor_steps (fes : Nat → FetchEnv) (ws : Nat → StorageWorld)
    (city : String) : Nat → DbStats → DbStats × List Bool
  | 0, stats => (stats, [])
  | Nat.succ n, stats =>
    let r := collect_once (fes 0) (ws 0) city stats
    let rest := monitor_steps (fun i => fes (i + 1)) (fun i => ws (i + 1)) city n r.2.1
    (rest.1, r.1 :: rest.2)

/-- Record with every field valid. -/
def validRecord : Record :=
  [("city", PyVal.str "北京"), ("aqi", PyVal.int 120),
   ("pm25", PyVal.float (PyFloat.finite 55)), ("pm10", PyVal.float (PyFloat.finite 80)),
   ("co", PyVal.float (PyFloat.finite 1)), ("no2", PyVal.float (PyFloat.finite 30)),
   ("o3", PyVal.float (PyFloat.finite 60)), ("so2", PyVal.float (PyFloat.finite 10)),
   ("level", PyVal.str "轻度污染"), ("raw_data", PyVal.str "raw")]

/-- Valid record except that pm25 holds the string "inf": float("inf")
succeeds, so validation accepts a non-finite reading. -/
def recInfPm25 : Record :=
  [("city", PyVal.str "北京"), ("aqi", PyVal.int 50),
   ("pm25", PyVal.str "inf"), ("pm10", PyVal.float (PyFloat.finite 10)),
   ("co", PyVal.float (PyFloat.finite 1)), ("no2", PyVal.float (PyFloat.finite 1)),
   ("o3", PyVal.float (PyFloat.finite 1)), ("so2", PyVal.float (PyFloat.finite 1)),
   ("level", PyVal.str "优"), ("raw_data", PyVal.str "x")]

/-- Valid record except that pm25 holds a list, whose float() conversion
raises TypeError. -/
def recListPm25 : Record :=
  [("city", PyVal.str "北京"), ("aqi", PyVal.int 50),
   ("pm25", PyVal.list []), ("pm10", PyVal.float (PyFloat.finite 10)),
   ("co", PyVal.float (PyFloat.finite 1)), ("no2", PyVal.float (PyFloat.finite 1)),
   ("o3", PyVal.float (PyFloat.finite 1)), ("so2", PyVal.float (PyFloat.finite 1)),
   ("level", PyVal.str "优"), ("raw_data", PyVal.str "x")]

/-- Record that fails validation (everything missing). -/
def invalidRecord : Record := []

/-- Storage world where every operation succeeds. -/
def calmWorld : StorageWorld :=
  ⟨fun _ => Option.none, fun _ => Option.none, fun _ => 1, fun _ => 1, fun i => i⟩

/-- Storage world whose first connection attempt fails, then recovers. -/
def flakyWorld : StorageWorld :=
  ⟨fun i => if i = 0 then some "locked" else Option.none,
   fun _ => Option.none, fun _ => 1, fun _ => 1, fun i => i⟩

/-- Storage world where every connection attempt fails. -/
def downWorld : StorageWorld :=
  ⟨fun _ => some "down", fun _ => Option.none, fun _ => 1, fun _ => 1,
   fun i => 100 + i⟩

/-- Storage world whose first attempt inserts successfully but the
post-write verification finds zero rows; later attempts verify fine. -/
def inconsistentWorld : StorageWorld :=
  ⟨fun _ => Option.none, fun _ => Option.none, fun _ => 1,
   fun i => if i = 0 then 0 else 1, fun i => i⟩

/-- Exactly one outcome counter is bumped by a loop run, and the total is
untouched (the loop body never touches total_attempts). -/
def oneOutcomeBump (base s : DbStats) : Prop :=
  s.total_attempts = base.total_attempts ∧
  ((s.successful_inserts = base.successful_inserts + 1 ∧
    s.failed_inserts = base.failed_inserts ∧
    s.validation_errors = base.validation_errors) ∨
   (s.successful_inserts = base.successful_inserts ∧
    s.failed_inserts = base.failed_inserts + 1 ∧
    s.validation_errors = base.validation_errors) ∨
   (s.successful_inserts = base.successful_inserts ∧
    s.failed_inserts = base.failed_inserts ∧
    s.validation_errors = base.validation_errors + 1))

/-- Statistics contract of one whole save_to_database call: total_attempts
up by one, exactly one outcome counter up by one, the accounting identity
preserved, and no counter ever decreased. -/
def saveCallStatsOk (stats s : DbStats) : Prop :=
  s.total_attempts = stats.total_attempts + 1 ∧
  ((s.successful_inserts = stats.successful_inserts + 1 ∧
    s.failed_inserts = stats.failed_inserts ∧
    s.validation_errors = stats.validation_errors) ∨
   (s.successful_inserts = stats.successful_inserts ∧
    s.failed_inserts = stats.failed_inserts + 1 ∧
    s.validation_errors = stats.validation_errors) ∨
   (s.successful_inserts = stats.successful_inserts ∧
    s.failed_inserts = stats.failed_inserts ∧
    s.validation_errors = stats.validation_errors + 1)) ∧
  (stats.total_attempts =
      stats.successful_inserts + stats.failed_inserts + stats.validation_errors →
    s.total_attempts = s.successful_inserts + s.failed_inserts + s.validation_errors) ∧
  (stats.total_attempts ≤ s.total_attempts ∧
   stats.successful_inserts ≤ s.successful_inserts ∧
   stats.failed_inserts ≤ s.failed_inserts ∧
   stats.validation_errors ≤ s.validation_errors)

/-- C1: for every integer index, get_air_quality_level returns one of the six
defined categories, treats negative inputs as Good, is monotonically
non-decreasing in severity as the index increases, and matches the
documented inclusive boundaries exactly (50 → Good, 51 → Moderate,
150 → LightlyPolluted, 200 → ModeratelyPolluted, 300 → HeavilyPolluted,
301 → SeverelyPolluted). -/
theorem severity_mapping_sound :
    ∀ i : Int,
      get_air_quality_level i ∈ valid_levels ∧
      (i < 0 → get_air_quality_level i = "优") ∧
      (∀ j : Int, i ≤ j →
        levelIdx (get_air_quality_level i) ≤ levelIdx (get_air_quality_level j)) ∧
      (severity 50 = some Severity.good ∧
       severity 51 = some Severity.moderate ∧
       severity 150 = some Severity.lightlyPolluted ∧
       severity 200 = some Severity.moderatelyPolluted ∧
       severity 300 = some Severity.heavilyPolluted ∧
       severity 301 = some Severity.severelyPolluted) := by
  intro i
  refine ⟨?_, ?_, ?_, by decide⟩
  · unfold get_air_quality_level
    split_ifs <;> simp [valid_levels]
  · intro h
    unfold get_air_quality_level
    rw [if_pos (by omega)]
  · intro j hij
    unfold get_air_quality_level
    split_ifs <;> first | omega | decide

/-- Witness for C1: instantiates the severity theorem at index -3 with the
monotonicity hypothesis discharged at index 120. -/
theorem severity_mapping_sound_witness :
    levelIdx (get_air_quality_level (-3)) ≤ levelIdx (get_air_quality_level 120) ∧
      get_air_quality_level (-3) = "优" :=
  ⟨(severity_mapping_sound (-3)).2.2.1 120 (by decide),
   (severity_mapping_sound (-3)).2.1 (by decide)⟩

/-- Helper: float() in this program only ever raises ValueError or
TypeError. -/
theorem pyFloat_error_kind (v : PyVal) (e : PyExc) (h : pyFloat v = Except.error e) :
    e = PyExc.valueError ∨ e = PyExc.typeError := by
  cases v with
  | none => exact Or.inr (Except.error.inj h).symm
  | bool b => exact absurd h (by simp [pyFloat])
  | int n => exact absurd h (by simp [pyFloat])
  | float f => exact absurd h (by simp [pyFloat])
  | str s =>
    simp only [pyFloat] at h
    cases hp : parseFloatStr s with
    | none =>
      rw [hp] at h
      exact Or.inl (Except.error.inj h).symm
    | some f =>
      rw [hp] at h
      exact absurd h (by simp)
  | list xs => exact Or.inr (Except.error.inj h).symm
  | dict xs => exact Or.inr (Except.error.inj h).symm

/-- C2 counterexample: a raw document whose overall index field is present
but non-numeric (the string "-") yields a record whose index is that string,
not 0, and normalization still succeeds. -/
theorem normalize_nonnumeric_index_cex :
    lookupA ((parse_waqi_response docNonNumericAqi "Beijing").getD []) "aqi"
        = some (PyVal.str "-") ∧
      some (PyVal.str "-") ≠ some (PyVal.int 0) ∧
      (parse_waqi_response docNonNumericAqi "Beijing").isSome = true := by
  refine ⟨rfl, ?_, rfl⟩
  intro h
  exact PyVal.noConfusion (Option.some.inj h)

/-- C2 amended: the record's index field is exactly the document's overall
index field with default 0, so it is 0 when the field is absent, while a
present non-numeric value is carried through unchanged. -/
theorem normalize_index_default_amended :
    ∀ (doc : PyVal) (city : String) (rec : Record),
      parse_waqi_response doc city = some rec →
      ∃ dataV aqiV,
        dictGetD doc "data" (PyVal.dict []) = Except.ok dataV ∧
        dictGetD dataV "aqi" (PyVal.int 0) = Except.ok aqiV ∧
        lookupA rec "aqi" = some aqiV ∧
        (∀ es, dataV = PyVal.dict es → lookupA es "aqi" = Option.none →
          aqiV = PyVal.int 0) := by
  intro doc city rec h
  unfold parse_waqi_response parse_waqi_core at h
  rcases h1 : dictGetD doc "data" (PyVal.dict []) with e | dataV
  · simp [h1, Except.toOption] at h
  simp only [h1] at h
  rcases h2 : dictGetD dataV "aqi" (PyVal.int 0) with e | aqiV
  · simp [h2, Except.toOption] at h
  simp only [h2] at h
  rcases h3 : dictGetD dataV "city" (PyVal.dict []) with e | cityField
  · simp [h3, Except.toOption] at h
  simp only [h3] at h
  rcases h4 : dictGetD cityField "name" (PyVal.str city) with e | city_name
  · simp [h4, Except.toOption] at h
  simp only [h4] at h
  rcases h5 : dictGetD dataV "iaqi" (PyVal.dict []) with e | iaqi
  · simp [h5, Except.toOption] at h
  simp only [h5] at h
  rcases h6 : _extract_iaqi_value iaqi "pm25" with e | pm25
  · simp [h6, Except.toOption] at h
  simp only [h6] at h
  rcases h7 : _extract_iaqi_value iaqi "pm10" with e | pm10
  · simp [h7, Except.toOption] at h
  simp only [h7] at h
  rcases h8 : _extract_iaqi_value iaqi "co" with e | co
  · simp [h8, Except.toOption] at h
  simp only [h8] at h
  rcases h9 : _extract_iaqi_value iaqi "no2" with e | no2
  · simp [h9, Except.toOption] at h
  simp only [h9] at h
  rcases h10 : _extract_iaqi_value iaqi "o3" with e | o3
  · simp [h10, Except.toOption] at h
  simp only [h10] at h
  rcases h11 : _extract_iaqi_value iaqi "so2" with e | so2
  · simp [h11, Except.toOption] at h
  simp only [h11] at h
  rcases h12 : get_air_quality_level_py aqiV with e | level
  · simp [h12, Except.toOption] at h
  simp only [h12] at h
  simp only [Except.toOption, Option.some.injEq] at h
  refine ⟨dataV, aqiV, rfl, h2, ?_, ?_⟩
  · rw [← h]
    rfl
  · intro es hd hnone
    subst hd
    simp only [dictGetD, hnone, Option.getD_none] at h2
    exact (Except.ok.inj h2).symm

/-- Witness for C2 amended: a document whose data object lacks the index
field normalizes to a record with index 0. -/
theorem normalize_index_default_amended_witness :
    lookupA ((parse_waqi_response docAbsentAqi "X").getD []) "aqi"
      = some (PyVal.int 0) := by
  obtain ⟨dataV, aqiV, h1, h2, h3, h4⟩ :=
    normalize_index_default_amended docAbsentAqi "X"
      ((parse_waqi_response docAbsentAqi "X").getD []) rfl
  have hd : PyVal.dict [] = dataV := Except.ok.inj h1
  have ha : aqiV = PyVal.int 0 := h4 [] hd.symm rfl
  rw [h3, ha]

/-- C8 counterexample: a pollutant entry that is present but not a mapping
(here the non-numeric string "oops") makes the whole normalization fail with
an uncaught AttributeError instead of producing 0.0 for that pollutant. -/
theorem extract_nonmapping_entry_cex :
    parse_waqi_response docNonMappingEntry "Beijing" = Option.none ∧
      _extract_iaqi_value (PyVal.dict [("pm25", PyVal.str "oops")]) "pm25"
        = Except.error PyExc.attributeError ∧
      pyFloat (PyVal.str "oops") = Except.error PyExc.valueError :=
  ⟨rfl, rfl, rfl⟩

/-- C8 amended: extraction yields the lenient default 0.0 whenever the
pollutant entry is absent, or is a mapping whose value field is absent, is
None, or fails float conversion; only a present non-mapping entry escapes
this default (and then fails the whole normalization, see the
counterexample). -/
theorem extract_iaqi_defaults_amended (entries : List (String × PyVal)) (p : String) :
    (lookupA entries p = Option.none →
      _extract_iaqi_value (PyVal.dict entries) p = Except.ok (PyFloat.finite 0)) ∧
    (∀ es, lookupA entries p = some (PyVal.dict es) →
      (lookupA es "v" = Option.none →
        _extract_iaqi_value (PyVal.dict entries) p = Except.ok (PyFloat.finite 0)) ∧
      (lookupA es "v" = some PyVal.none →
        _extract_iaqi_value (PyVal.dict entries) p = Except.ok (PyFloat.finite 0)) ∧
      (∀ v e, lookupA es "v" = some v → pyFloat v = Except.error e →
        _extract_iaqi_value (PyVal.dict entries) p = Except.ok (PyFloat.finite 0))) := by
  constructor
  · intro h
    simp only [_extract_iaqi_value, dictGetD, h, Option.getD_none]
    rfl
  · intro es hes
    refine ⟨?_, ?_, ?_⟩
    · intro hv
      simp only [_extract_iaqi_value, dictGetD, hes, hv, Option.getD_some, Option.getD_none]
      rfl
    · intro hv
      simp only [_extract_iaqi_value, dictGetD, hes, hv, Option.getD_some]
      rfl
    · intro v e hv hf
      have hk := pyFloat_error_kind v e hf
      simp only [_extract_iaqi_value, dictGetD, hes, hv, Option.getD_some]
      split
      · rfl
      · rw [hf]
        rcases hk with rfl | rfl <;> rfl

/-- Witness for C8 amended: an entry whose value field is a non-numeric
string extracts to 0.0. -/
theorem extract_iaqi_defaults_amended_witness :
    _extract_iaqi_value
        (PyVal.dict [("pm25", PyVal.dict [("v", PyVal.str "bad")])]) "pm25"
      = Except.ok (PyFloat.finite 0) :=
  (((extract_iaqi_defaults_amended
        [("pm25", PyVal.dict [("v", PyVal.str "bad")])] "pm25").2
      [("v", PyVal.str "bad")] rfl).2.2) (PyVal.str "bad") PyExc.valueError rfl rfl

/-- Helper: an empty firstMissing result means every listed field is
present. -/
theorem firstMissing_none (d : Record) :
    ∀ (fs : List String), firstMissing d fs = Option.none →
      ∀ f ∈ fs, (lookupA d f).isSome := by
  intro fs
  induction fs with
  | nil =>
    intro _ f hf
    exact absurd hf (List.not_mem_nil f)
  | cons g gs ih =>
    intro h f hf
    simp only [firstMissing] at h
    by_cases hg : (lookupA d g).isSome
    · rw [if_pos hg] at h
      rcases List.mem_cons.mp hf with rfl | hf2
      · exact hg
      · exact ih h f hf2
    · rw [if_neg hg] at h
      exact Option.noConfusion h

/-- Helper: a passing required-fields check means every required field is
present. -/
theorem checkRequired_present (d : Record) (h : checkRequired d = Except.ok ()) :
    ∀ f ∈ required_fields, (lookupA d f).isSome := by
  intro f hf
  unfold checkRequired at h
  cases hm : firstMissing d required_fields with
  | some g => simp [hm] at h
  | none => exact firstMissing_none d required_fields hm f hf

/-- Helper: the numeric check passes when every listed field is present and
its value passes the per-field conversion check. -/
theorem checkNumericList_ok (d : Record) :
    ∀ (fs : List String),
      (∀ f ∈ fs, (lookupA d f).isSome) →
      (∀ f ∈ fs, ∀ v, lookupA d f = some v → numericOkF f v = true) →
      checkNumericList d fs = Except.ok () := by
  intro fs
  induction fs with
  | nil => intro _ _; rfl
  | cons g gs ih =>
    intro hpres hok
    cases hg : lookupA d g with
    | none =>
      have := hpres g (List.mem_cons_self g gs)
      rw [hg] at this
      exact absurd this (by simp)
    | some v =>
      have hv := hok g (List.mem_cons_self g gs) v hg
      have hrest := ih (fun f hf => hpres f (List.mem_cons_of_mem g hf))
        (fun f hf => hok f (List.mem_cons_of_mem g hf))
      simp [checkNumericList, hg, hv, hrest]

/-- Helper: when every listed field is present, a first bad field reported
by firstBadNumericList is genuinely non-convertible and is exactly where the
numeric check fails. -/
theorem firstBadNumericList_spec (d : Record) :
    ∀ (fs : List String),
      (∀ f ∈ fs, (lookupA d f).isSome) →
      ∀ g, firstBadNumericList d fs = some g →
        (∃ w, lookupA d g = some w ∧ numericOkF g w = false) ∧
        checkNumericList d fs = Except.error (ValError.numericType g) := by
  intro fs
  induction fs with
  | nil =>
    intro _ g h
    exact Option.noConfusion h
  | cons f fs ih =>
    intro hpres g h
    cases hf : lookupA d f with
    | none =>
      have := hpres f (List.mem_cons_self f fs)
      rw [hf] at this
      exact absurd this (by simp)
    | some v =>
      simp only [firstBadNumericList, hf] at h
      by_cases hok : numericOkF f v = true
      · rw [if_pos hok] at h
        obtain ⟨hw, hc⟩ := ih (fun x hx => hpres x (List.mem_cons_of_mem f hx)) g h
        exact ⟨hw, by simp [checkNumericList, hf, hok, hc]⟩
      · have hok2 : numericOkF f v = false := by
          revert hok
          cases numericOkF f v <;> simp
        rw [if_neg hok] at h
        have hg : f = g := Option.some.inj h
        subst hg
        exact ⟨⟨v, hf, hok2⟩, by simp [checkNumericList, hf, hok2]⟩

/-- C4 counterexample: a record whose pm25 field holds the string "inf" —
not representable as a finite number — passes validate_data, because
float("inf") succeeds and the validator only checks that the conversion does
not raise. -/
theorem validate_accepts_nonfinite_cex :
    validate_data recInfPm25 = Except.ok () ∧
      lookupA recInfPm25 "pm25" = some (PyVal.str "inf") ∧
      pyFloat (PyVal.str "inf") = Except.ok PyFloat.inf ∧
      PyFloat.inf.isFinite = false :=
  ⟨rfl, rfl, rfl, rfl⟩

/-- C4 amended: given the earlier checks pass, the numeric check accepts a
record exactly when each numeric field's value converts with float() —
finite or not, with None accepted for every field except aqi — and when some
field fails conversion, validation fails closed with a ValidationError
naming the first such field. -/
theorem validate_numeric_check_amended :
    ∀ (d : Record),
      checkRequired d = Except.ok () →
      checkCity d = Except.ok () →
      (((∀ f ∈ numeric_fields, ∀ v, lookupA d f = some v → numericOkF f v = true) →
          checkNumeric d = Except.ok ()) ∧
       (∀ g, firstBadNumeric d = some g →
          validate_data d = Except.error (ValError.numericType g) ∧
          ∃ w, lookupA d g = some w ∧ numericOkF g w = false)) := by
  intro d hreq hcity
  have hsub : ∀ x ∈ numeric_fields, x ∈ required_fields := by decide
  have hpres : ∀ f ∈ numeric_fields, (lookupA d f).isSome := fun f hf =>
    checkRequired_present d hreq f (hsub f hf)
  constructor
  · intro hok
    exact checkNumericList_ok d numeric_fields hpres hok
  · intro g hg
    obtain ⟨hw, hc⟩ := firstBadNumericList_spec d numeric_fields hpres g hg
    refine ⟨?_, hw⟩
    simp only [validate_data, hreq, hcity, checkNumeric, hc]

/-- Witness for C4 amended: a record whose pm25 is a list (TypeError under
float()) is rejected with an error naming pm25. -/
theorem validate_numeric_check_amended_witness :
    validate_data recListPm25 = Except.error (ValError.numericType "pm25") :=
  ((validate_numeric_check_amended recListPm25 rfl rfl).2 "pm25" rfl).1

/-- Helper: exact behavior of save_to_database on a record failing
validation. -/
theorem save_validation_fail_aux :
    ∀ (w : StorageWorld) (d : Record) (n : Nat) (stats : DbStats) (e : ValError),
      validate_data d = Except.error e → 1 ≤ n →
      save_to_database w d n stats =
        (false,
         { stats with total_attempts := stats.total_attempts + 1,
                      validation_errors := stats.validation_errors + 1 },
         []) := by
  intro w d n stats e hval hn
  unfold save_to_database
  cases n with
  | zero => exact absurd hn (by omega)
  | succ m =>
    rw [List.range_succ_eq_map]
    simp [save_loop, hval]

/-- C3: a record that fails validation makes save_to_database (for any
positive attempt budget) return failure immediately: the validation-failure
counter is incremented exactly once, no other counter changes, and the
event trace is empty — no storage connection is opened, no row written, no
backoff sleep performed, no retry made. -/
theorem save_validation_failure_terminal :
    ∀ (w : StorageWorld) (d : Record) (n : Nat) (stats : DbStats) (e : ValError),
      validate_data d = Except.error e → 1 ≤ n →
      save_to_database w d n stats =
        (false,
         { stats with total_attempts := stats.total_attempts + 1,
                      validation_errors := stats.validation_errors + 1 },
         []) :=
  save_validation_fail_aux

/-- Witness for C3: the all-fields-missing record under a fully healthy
storage world. -/
theorem save_validation_failure_terminal_witness :
    save_to_database calmWorld invalidRecord 3 initial_db_stats =
      (false, ⟨1, 0, 0, 1, Option.none, Option.none⟩, []) :=
  save_validation_failure_terminal calmWorld invalidRecord 3 initial_db_stats
    (ValError.missingField "city") rfl (by omega)

/-- Helper: attempt events never contain backoff sleeps. -/
theorem attemptEvents_no_sleep (d : Record) (i : Nat) :
    (attemptEvents d i).filter isSleepEvent = [] := by
  unfold attemptEvents
  cases prep_insert_data d <;> simp [isSleepEvent]

/-- Helper: the retry loop run from attempt a, with k storage failures
followed by a success within the window, succeeds and bumps the success
counter exactly once. -/
theorem save_loop_success_aux (w : StorageWorld) (d : Record) (rc : Nat)
    (hval : validate_data d = Except.ok ()) :
    ∀ (k a n : Nat) (stats : DbStats), a + n ≤ rc → k < n →
      (∀ i, i < k → ∃ e, run_attempt w d (a + i) = Except.error e) →
      run_attempt w d (a + k) = Except.ok () →
      (save_loop w d rc (List.range' a n) stats).1 = true ∧
      (save_loop w d rc (List.range' a n) stats).2.1 =
        { stats with successful_inserts := stats.successful_inserts + 1 } := by
  intro k
  induction k with
  | zero =>
    intro a n stats han hkn herr hsucc
    cases n with
    | zero => omega
    | succ m =>
      rw [Nat.add_zero] at hsucc
      rw [List.range'_succ]
      simp [save_loop, hval, hsucc]
  | succ k ih =>
    intro a n stats han hkn herr hsucc
    cases n with
    | zero => omega
    | succ m =>
      obtain ⟨e, he⟩ := herr 0 (by omega)
      rw [Nat.add_zero] at he
      have hne : ¬(a = rc - 1) := by omega
      rw [List.range'_succ]
      simp only [save_loop, hval, he, if_neg hne]
      have ihm := ih (a + 1) m stats (by omega) (by omega)
        (fun i hi => by
          have h2 := herr (i + 1) (by omega)
          rwa [show a + (i + 1) = a + 1 + i by omega] at h2)
        (by rwa [show a + (k + 1) = a + 1 + k by omega] at hsucc)
      exact ⟨ihm.1, ihm.2⟩

/-- Helper: one non-final failing attempt unfolds to a backoff sleep
followed by the loop on the remaining attempts. -/
theorem save_loop_cons_error (w : StorageWorld) (d : Record) (rc att : Nat)
    (rest : List Nat) (stats : DbStats) (e : AttemptErr)
    (hval : validate_data d = Except.ok ())
    (he : run_attempt w d att = Except.error e)
    (hne : ¬(att = rc - 1)) :
    save_loop w d rc (att :: rest) stats =
      ((save_loop w d rc rest stats).1,
       (save_loop w d rc rest stats).2.1,
       attemptEvents d att ++ SaveEvent.sleep 1 ::
         (save_loop w d rc rest stats).2.2) := by
  simp only [save_loop, hval, he, if_neg hne]

/-- Helper: the retry loop run from attempt a with every remaining attempt
failing is terminal failure with the failure counter bumped once, the last
attempt's error and timestamp recorded, and one backoff sleep per non-final
attempt. -/
theorem save_loop_all_fail_aux (w : StorageWorld) (d : Record) (rc : Nat)
    (hval : validate_data d = Except.ok ()) (errAt : Nat → AttemptErr)
    (herr : ∀ i, i < rc → run_attempt w d i = Except.error (errAt i)) :
    ∀ (n a : Nat) (stats : DbStats), 1 ≤ n → a + n = rc →
      (save_loop w d rc (List.range' a n) stats).1 = false ∧
      (save_loop w d rc (List.range' a n) stats).2.1 =
        { stats with failed_inserts := stats.failed_inserts + 1,
                     last_error := some (errMsgOf (errAt (rc - 1))),
                     last_error_time := some (w.now (rc - 1)) } ∧
      (save_loop w d rc (List.range' a n) stats).2.2.filter isSleepEvent =
        List.replicate (n - 1) (SaveEvent.sleep 1) := by
  intro n
  induction n with
  | zero =>
    intro a stats h1 hsum
    omega
  | succ m ih =>
    intro a stats h1 hsum
    rw [List.range'_succ]
    have he := herr a (by omega)
    cases m with
    | zero =>
      have ha : a = rc - 1 := by omega
      subst ha
      simp [save_loop, hval, he, attemptEvents_no_sleep]
    | succ m2 =>
      have hne : ¬(a = rc - 1) := by omega
      have ihm := ih (a + 1) stats (by omega) (by omega)
      rw [save_loop_cons_error w d rc a (List.range' (a + 1) (m2 + 1)) stats
        (errAt a) hval he hne]
      refine ⟨ihm.1, ihm.2.1, ?_⟩
      simp only [List.filter_append, attemptEvents_no_sleep, List.nil_append,
        List.filter_cons, isSleepEvent, ihm.2.2]
      rfl

/-- C5: a save call whose storage attempts fail transiently and then succeed
within the attempt budget returns success and bumps the success counter
exactly once for the whole call (and total_attempts once), leaving every
other counter and the last-error diagnostics untouched. -/
theorem save_retry_success_single_increment :
    ∀ (w : StorageWorld) (d : Record) (rc k : Nat) (stats : DbStats),
      validate_data d = Except.ok () → k < rc →
      (∀ i, i < k → ∃ e, run_attempt w d i = Except.error e) →
      run_attempt w d k = Except.ok () →
      (save_to_database w d rc stats).1 = true ∧
      (save_to_database w d rc stats).2.1 =
        { stats with total_attempts := stats.total_attempts + 1,
                     successful_inserts := stats.successful_inserts + 1 } := by
  intro w d rc k stats hval hk herr hsucc
  unfold save_to_database
  rw [List.range_eq_range']
  exact save_loop_success_aux w d rc hval k 0 rc _ (by omega) hk
    (fun i hi => by simpa using herr i hi)
    (by simpa using hsucc)

/-- Witness for C5: first connection attempt fails, second succeeds; the
success counter ends at exactly 1. -/
theorem save_retry_success_single_increment_witness :
    (save_to_database flakyWorld validRecord 3 initial_db_stats).1 = true ∧
    (save_to_database flakyWorld validRecord 3 initial_db_stats).2.1 =
      ⟨1, 1, 0, 0, Option.none, Option.none⟩ :=
  save_retry_success_single_increment flakyWorld validRecord 3 1 initial_db_stats
    rfl (by omega)
    (fun i hi => by
      have h0 : i = 0 := by omega
      subst h0
      exact ⟨AttemptErr.db "数据库连接错误: locked", rfl⟩)
    rfl

/-- C6: a save call in which every attempt fails with a storage-layer error
retries with a fixed 1-second backoff after each non-final attempt, and on
exhaustion returns failure with the failed-insert counter bumped exactly
once and the final attempt's error string and timestamp recorded in
last_error and last_error_time. -/
theorem save_exhausted_retries_terminal :
    ∀ (w : StorageWorld) (d : Record) (rc : Nat) (stats : DbStats)
      (errAt : Nat → AttemptErr),
      validate_data d = Except.ok () → 1 ≤ rc →
      (∀ i, i < rc → run_attempt w d i = Except.error (errAt i)) →
      (save_to_database w d rc stats).1 = false ∧
      (save_to_database w d rc stats).2.1 =
        { stats with total_attempts := stats.total_attempts + 1,
                     failed_inserts := stats.failed_inserts + 1,
                     last_error := some (errMsgOf (errAt (rc - 1))),
                     last_error_time := some (w.now (rc - 1)) } ∧
      (save_to_database w d rc stats).2.2.filter isSleepEvent =
        List.replicate (rc - 1) (SaveEvent.sleep 1) := by
  intro w d rc stats errAt hval hrc herr
  unfold save_to_database
  rw [List.range_eq_range']
  exact save_loop_all_fail_aux w d rc hval errAt herr rc 0 _ hrc (by omega)

/-- Witness for C6: a storage world whose connection always fails, default
budget 3: two sleeps, failure counter 1, diagnostics recorded from the third
attempt. -/
theorem save_exhausted_retries_terminal_witness :
    (save_to_database downWorld validRecord 3 initial_db_stats).1 = false ∧
    (save_to_database downWorld validRecord 3 initial_db_stats).2.1 =
      ⟨1, 0, 1, 0, some "数据库连接错误: down", some 102⟩ ∧
    (save_to_database downWorld validRecord 3 initial_db_stats).2.2.filter
        isSleepEvent = List.replicate 2 (SaveEvent.sleep 1) :=
  save_exhausted_retries_terminal downWorld validRecord 3 initial_db_stats
    (fun _ => AttemptErr.db "数据库连接错误: down") rfl (by omega)
    (fun i hi => rfl)

/-- C7: an attempt whose insert is reported successful (nonzero rowcount,
no storage errors) but whose post-write verification finds zero rows ends
as a DatabaseError — never as success — and, when it is not the final
attempt, the call sleeps once and continues with the remaining attempts,
the outcome of the whole call being that of those remaining attempts. -/
theorem save_verify_zero_triggers_retry :
    ∀ (w : StorageWorld) (d : Record) (rc : Nat) (stats : DbStats) (i : Nat),
      validate_data d = Except.ok () →
      prep_insert_data d = Except.ok () →
      w.connErr i = Option.none →
      w.sqliteErr i = Option.none →
      w.rowcount i ≠ 0 →
      w.verifyCount i = 0 →
      run_attempt w d i =
        Except.error (AttemptErr.db "数据插入后验证失败，数据未找到") ∧
      (i = 0 → 2 ≤ rc →
        save_to_database w d rc stats =
          ((save_loop w d rc (List.range' 1 (rc - 1))
              { stats with total_attempts := stats.total_attempts + 1 }).1,
           (save_loop w d rc (List.range' 1 (rc - 1))
              { stats with total_attempts := stats.total_attempts + 1 }).2.1,
           SaveEvent.connOpen 0 :: SaveEvent.sleep 1 ::
             (save_loop w d rc (List.range' 1 (rc - 1))
                { stats with total_attempts := stats.total_attempts + 1 }).2.2)) := by
  intro w d rc stats i hval hprep hconn hsql hrow hver
  have hatt : run_attempt w d i =
      Except.error (AttemptErr.db "数据插入后验证失败，数据未找到") := by
    simp only [run_attempt, hprep, hconn, hsql]
    rw [if_neg hrow, if_pos hver]
  refine ⟨hatt, ?_⟩
  intro hi hrc
  subst hi
  unfold save_to_database
  obtain ⟨m, rfl⟩ : ∃ m, rc = m + 2 := ⟨rc - 2, by omega⟩
  rw [show m + 2 - 1 = m + 1 by omega]
  rw [List.range_eq_range', List.range'_succ]
  have hne : ¬(0 = m + 2 - 1) := by omega
  rw [show (0 : Nat) + 1 = 1 by omega]
  rw [save_loop_cons_error w d (m + 2) 0 (List.range' 1 (m + 1))
    { stats with total_attempts := stats.total_attempts + 1 }
    (AttemptErr.db "数据插入后验证失败，数据未找到") hval hatt hne]
  simp only [attemptEvents, hprep]
  rfl

/-- Witness for C7: world whose first verification finds zero rows, then
recovers; the call succeeds on the second attempt after one backoff
sleep. -/
theorem save_verify_zero_triggers_retry_witness :
    (save_to_database inconsistentWorld validRecord 3 initial_db_stats).1 = true ∧
    (save_to_database inconsistentWorld validRecord 3 initial_db_stats).2.2 =
      [SaveEvent.connOpen 0, SaveEvent.sleep 1, SaveEvent.connOpen 1] := by
  have h := save_verify_zero_triggers_retry inconsistentWorld validRecord 3
    initial_db_stats 0 rfl rfl rfl rfl (by decide) rfl
  rw [h.2 rfl (by omega)]
  exact ⟨rfl, rfl⟩

/-- Helper: every run of the retry loop on a nonempty final segment of the
attempt range bumps exactly one outcome counter and leaves total_attempts
alone. -/
theorem save_loop_outcome_aux (w : StorageWorld) (d : Record) (rc : Nat) :
    ∀ (n a : Nat) (stats : DbStats), 1 ≤ n → a + n = rc →
      oneOutcomeBump stats (save_loop w d rc (List.range' a n) stats).2.1 := by
  intro n
  induction n with
  | zero =>
    intro a stats h1 hsum
    omega
  | succ m ih =>
    intro a stats h1 hsum
    rw [List.range'_succ]
    cases hv : validate_data d with
    | error e =>
      simp only [save_loop, hv]
      exact ⟨rfl, Or.inr (Or.inr ⟨rfl, rfl, rfl⟩)⟩
    | ok u =>
      cases u
      cases hr : run_attempt w d a with
      | ok u2 =>
        cases u2
        simp only [save_loop, hv, hr]
        exact ⟨rfl, Or.inl ⟨rfl, rfl, rfl⟩⟩
      | error e =>
        by_cases hlast : a = rc - 1
        · simp only [save_loop, hv, hr, if_pos hlast]
          exact ⟨rfl, Or.inr (Or.inl ⟨rfl, rfl, rfl⟩)⟩
        · have hm : 1 ≤ m := by omega
          have ihm := ih (a + 1) stats hm (by omega)
          simp only [save_loop, hv, hr, if_neg hlast]
          exact ihm

/-- C10: every save call with a positive attempt budget bumps
total_attempts by exactly one, bumps exactly one of the three outcome
counters by exactly one, never decreases any counter, and therefore
preserves the invariant that total_attempts equals the sum of successes,
failures and validation errors. -/
theorem save_stats_invariant :
    ∀ (w : StorageWorld) (d : Record) (rc : Nat) (stats : DbStats), 1 ≤ rc →
      saveCallStatsOk stats (save_to_database w d rc stats).2.1 := by
  intro w d rc stats hrc
  unfold save_to_database
  rw [List.range_eq_range']
  obtain ⟨ht, hcase⟩ := save_loop_outcome_aux w d rc rc 0
    { stats with total_attempts := stats.total_attempts + 1 } hrc (by omega)
  have ht2 : (save_loop w d rc (List.range' 0 rc)
      { stats with total_attempts := stats.total_attempts + 1 }).2.1.total_attempts
      = stats.total_attempts + 1 := ht
  refine ⟨ht2, hcase, ?_, ?_⟩
  · intro hsum
    rcases hcase with ⟨h1, h2, h3⟩ | ⟨h1, h2, h3⟩ | ⟨h1, h2, h3⟩ <;>
      (dsimp only at h1 h2 h3; omega)
  · rcases hcase with ⟨h1, h2, h3⟩ | ⟨h1, h2, h3⟩ | ⟨h1, h2, h3⟩ <;>
      (dsimp only at h1 h2 h3; refine ⟨?_, ?_, ?_, ?_⟩ <;> omega)

/-- Witness for C10: the statistics contract at the all-attempts-fail
world. -/
theorem save_stats_invariant_witness :
    saveCallStatsOk initial_db_stats
      (save_to_database downWorld validRecord 3 initial_db_stats).2.1 :=
  save_stats_invariant downWorld validRecord 3 initial_db_stats (by omega)

/-- C9: a single pipeline run returns a Boolean failure result at every
failure stage — fetch error (including normalization failure, which
surfaces as a None fetch result), validation failure, storage failure —
and the scheduler loop runs every tick regardless: n scheduled runs always
produce n results, so no pipeline failure ever stops the loop.  The model
of collect_once is a total function into Bool: no exception escapes. -/
theorem collect_once_failures_resilient :
    (∀ (fe : FetchEnv) (w : StorageWorld) (city : String) (stats : DbStats),
       fetch_data_from_api fe city = Option.none →
       collect_once fe w city stats = (false, stats, [])) ∧
    (∀ (fe : FetchEnv) (w : StorageWorld) (city : String) (stats : DbStats)
       (d : Record) (e : ValError),
       fetch_data_from_api fe city = some d →
       validate_data d = Except.error e →
       (collect_once fe w city stats).1 = false) ∧
    (∀ (fe : FetchEnv) (w : StorageWorld) (city : String) (stats : DbStats)
       (d : Record) (errAt : Nat → AttemptErr),
       fetch_data_from_api fe city = some d →
       validate_data d = Except.ok () →
       (∀ i, i < 3 → run_attempt w d i = Except.error (errAt i)) →
       (collect_once fe w city stats).1 = false) ∧
    (∀ (fes : Nat → FetchEnv) (ws : Nat → StorageWorld) (city : String)
       (stats : DbStats) (n : Nat),
       (monitor_steps fes ws city n stats).2.length = n) := by
  refine ⟨?_, ?_, ?_, ?_⟩
  · intro fe w city stats h
    simp [collect_once, h]
  · intro fe w city stats d e hf hval
    simp only [collect_once, hf]
    rw [save_validation_fail_aux w d 3 stats e hval (by omega)]
  · intro fe w city stats d errAt hf hval herr
    simp only [collect_once, hf]
    unfold save_to_database
    rw [List.range_eq_range']
    exact (save_loop_all_fail_aux w d 3 hval errAt herr 3 0
      { stats with total_attempts := stats.total_attempts + 1 }
      (by omega) (by omega)).1
  · intro fes ws city stats n
    induction n generalizing fes ws stats with
    | zero => rfl
    | succ m ih => simp [monitor_steps, ih]

/-- Witness for C9: a failed fetch yields a False run result and a
five-tick scheduler run still performs all five pipeline runs. -/
theorem collect_once_failures_resilient_witness :
    collect_once (FetchEnv.requestError "boom") calmWorld "北京" initial_db_stats =
      (false, initial_db_stats, []) ∧
    (monitor_steps (fun _ => FetchEnv.requestError "boom") (fun _ => calmWorld)
        "北京" 5 initial_db_stats).2.length = 5 :=
  ⟨collect_once_failures_resilient.1 (FetchEnv.requestError "boom") calmWorld
      "北京" initial_db_stats rfl,
   collect_once_failures_resilient.2.2.2 (fun _ => FetchEnv.requestError "boom")
      (fun _ => calmWorld) "北京" initial_db_stats 5⟩

end AirQuality
